import Mathlib

/-!
Verification of the AlertHarvest MCP server adapter
(`alertharvest_server.py`) against its specification.

The adapter exposes seven tool operations.  Each operation validates its
string arguments, optionally issues exactly one HTTP request against a
configured backend base URL, and converts the outcome to a human-readable
result string.

Shallow embedding conventions:
* Python strings are Lean `String`s (a wrapper around `List Char`); the
  Python string primitives the source uses (`str.strip`, `str.split(",")`,
  `int(...)`) are embedded as the executable functions `pyStrip`,
  `pySplitComma` and `pyInt` below.  Whitespace is the ASCII whitespace
  set recognised by `Char.isWhitespace` (space, tab, CR, LF); the claims
  only exercise these characters.  `pyInt` covers CPython's `int` grammar
  for ASCII decimal literals (optional sign, digits, single underscores
  between digits).
* The single outbound HTTP call of an operation is represented by the
  `request : Option Request` field of the result: `none` means the
  operation returned before any network I/O, `some r` that exactly one
  request `r` was issued.  The request path is relative to the configured
  base URL (`ALERTHARVEST_URL`), which is read once at startup and never
  mutated; it plays no role in any claim and is not modelled.
* The environment's response to the one request is an explicit
  `BackendOutcome` argument: the HTTP status error raised by
  `response.raise_for_status()`, a transport-level exception (connection
  refused, timeout, ...), a decode failure of `response.json()`, or a
  decoded JSON body, of which only the `status` and `message` fields are
  consulted (`result.get(...)`): an absent or non-string field is `none`,
  since it can never compare equal to the string the code tests against.
* Python exceptions are the `Except PyErr` monad.  `doRequest` is the body
  of the `try:` block (the code that can raise); each operation ends by
  handling its result exactly as the source's `except httpx.HTTPStatusError`
  and `except Exception` clauses do.  An operation therefore has result
  type `Except PyErr OpResult`, and returning `.ok` in every branch is the
  embedded form of "never propagates an exception to the caller".
* `datetime.now(timezone.utc).isoformat()` (`format_timestamp`) is a
  wall-clock read; its value is passed in as the explicit `now` argument
  of `create_alert`, standing for the ISO-8601 UTC timestamp generated at
  call time.
* Logging (`logger.info` / `logger.error`) is diagnostic output with no
  effect on results or requests and is not modelled.
-/

/-- HTTP method of an outbound request. -/
inductive Method where
  | post
  | put
deriving DecidableEq

/-- JSON body of an outbound request: none, the create-alert object, or a
bulk identifier list. -/
inductive Body where
  | empty
  | createBody (location severity message source timestamp : String)
  | idsBody (ids : List Int)
deriving DecidableEq

/-- One outbound HTTP request: method, path relative to the configured base
URL, and JSON body. -/
structure Request where
  method : Method
  path : String
  body : Body
deriving DecidableEq

/-- Observable result of one operation: the returned string and the request
issued (`none` when the operation returned before any network I/O). -/
structure OpResult where
  output : String
  request : Option Request
deriving DecidableEq

/-- Python exceptions relevant to the adapter: `httpx.HTTPStatusError`
raised by `response.raise_for_status()` (carrying the response status
code), and any other `Exception` (carrying its `str(e)` rendering). -/
inductive PyErr where
  | httpStatusError (code : Nat)
  | other (msg : String)
deriving DecidableEq

/-- Outcome of the single HTTP round trip, supplied by the environment:
an HTTP error status, a transport failure (connection refused, timeout,
...), an HTTP success whose body `response.json()` cannot decode, or an
HTTP success with a decoded body of which the code reads the `status` and
`message` fields (`none` = absent or not a string). -/
inductive BackendOutcome where
  | httpError (code : Nat)
  | netFail (msg : String)
  | badJson (msg : String)
  | body (status : Option String) (message : Option String)
deriving DecidableEq

/-- The `try:` block shared by all operations: issue the request, call
`raise_for_status`, decode the body.  `raise_for_status` raises
`httpx.HTTPStatusError` on an HTTP error status; transport failures and
`response.json()` decode failures raise other exceptions. -/
def doRequest (outcome : BackendOutcome) : Except PyErr (Option String × Option String) :=
  match outcome with
  | .httpError code => .error (.httpStatusError code)
  | .netFail msg => .error (.other msg)
  | .badJson msg => .error (.other msg)
  | .body status message => .ok (status, message)

/-- Python `str.strip()`: drop leading and trailing whitespace. -/
def pyStrip (s : String) : String :=
  ⟨((s.data.dropWhile Char.isWhitespace).reverse.dropWhile Char.isWhitespace).reverse⟩

/-- Helper for `pySplitComma`: accumulate the current (reversed) segment. -/
def pySplitCommaAux : List Char → List Char → List String
  | acc, [] => [⟨acc.reverse⟩]
  | acc, c :: cs =>
    if c = ',' then ⟨acc.reverse⟩ :: pySplitCommaAux [] cs
    else pySplitCommaAux (c :: acc) cs

/-- Python `str.split(",")`: split at every comma, keeping empty segments
(`"".split(",") = [""]`, `"a,,b".split(",") = ["a","","b"]`). -/
def pySplitComma (s : String) : List String :=
  pySplitCommaAux [] s.data

/-- Digit tail of a Python decimal literal: after a leading digit, further
digits with single underscores allowed between digits. -/
def pyDigitsAux : Nat → List Char → Option Nat
  | acc, [] => some acc
  | acc, '_' :: c :: cs =>
    if c.isDigit then pyDigitsAux (10 * acc + (c.toNat - 48)) cs else none
  | acc, c :: cs =>
    if c.isDigit then pyDigitsAux (10 * acc + (c.toNat - 48)) cs else none

/-- Digit part of a Python decimal literal: at least one digit, then
`pyDigitsAux`. -/
def pyDigitsStart : List Char → Option Nat
  | [] => none
  | c :: cs => if c.isDigit then pyDigitsAux (c.toNat - 48) cs else none

/-- Sign and digit part of a Python decimal integer literal. -/
def pyIntCore : List Char → Option Int
  | [] => none
  | '+' :: cs => (pyDigitsStart cs).map (fun n => (n : Int))
  | '-' :: cs => (pyDigitsStart cs).map (fun n => -(n : Int))
  | cs => (pyDigitsStart cs).map (fun n => (n : Int))

/-- Python `int(s)` on a string: strip whitespace, then parse an optional
sign followed by ASCII digits; `none` is a raised `ValueError`. -/
def pyInt (s : String) : Option Int :=
  pyIntCore (pyStrip s).data

/-- `validate_severity`: exact membership of the (unstripped) severity in
the uppercase list. -/
def validate_severity (severity : String) : Bool :=
  let valid_levels := ["CRITICAL", "MAJOR", "WARNING"]
  decide (severity ∈ valid_levels)

/-- Success confirmation string of `create_alert`, echoing the original
(unstripped) arguments and the timestamp actually used. -/
def createSuccessString (location severity message source timestamp : String) : String :=
  "✅ Alert Created Successfully\n📍 Location: " ++ location ++
    "\n⚠️ Severity: " ++ severity ++ "\n💬 Message: " ++ message ++
    "\n🔗 Source: " ++ source ++ "\n⏱️ Timestamp: " ++ timestamp

/-- `create_alert(location, severity, message, source, timestamp)`.
`now` is the value of `format_timestamp()` (the ISO-8601 UTC wall-clock
timestamp) if it were read during this call. -/
def create_alert (location severity message source timestamp : String)
    (now : String) (outcome : BackendOutcome) : Except PyErr OpResult :=
  if pyStrip location = "" then .ok ⟨"❌ Error: Location is required", none⟩
  else if pyStrip severity = "" then .ok ⟨"❌ Error: Severity is required", none⟩
  else if pyStrip message = "" then .ok ⟨"❌ Error: Message is required", none⟩
  else if pyStrip source = "" then .ok ⟨"❌ Error: Source is required", none⟩
  else if validate_severity severity = false then
    .ok ⟨"❌ Error: Invalid severity. Must be one of: critical, major, warning", none⟩
  else
    let alert_timestamp := if pyStrip timestamp = "" then now else pyStrip timestamp
    let req : Request := ⟨.post, "/api/create_alert/",
      .createBody (pyStrip location) (pyStrip severity) (pyStrip message)
        (pyStrip source) alert_timestamp⟩
    match doRequest outcome with
    | .ok (status, message') =>
      if status = some "success" then
        .ok ⟨createSuccessString location severity message source alert_timestamp, some req⟩
      else
        .ok ⟨"❌ Error: " ++ message'.getD "Unknown error", some req⟩
    | .error (.httpStatusError code) =>
      .ok ⟨"❌ API Error: HTTP " ++ toString code, some req⟩
    | .error (.other msg) =>
      .ok ⟨"❌ Error: " ++ msg, some req⟩

/-- `acknowledge_alert(alert_id)`. -/
def acknowledge_alert (alert_id : String) (outcome : BackendOutcome) :
    Except PyErr OpResult :=
  if pyStrip alert_id = "" then .ok ⟨"❌ Error: Alert ID is required", none⟩
  else
    match pyInt (pyStrip alert_id) with
    | none => .ok ⟨"❌ Error: Alert ID must be a number, got: " ++ alert_id, none⟩
    | some alert_id_int =>
      let req : Request := ⟨.put, "/api/acknowledge_alert/" ++ toString alert_id_int, .empty⟩
      match doRequest outcome with
      | .ok (status, message) =>
        if status = some "success" then
          .ok ⟨"✅ Alert #" ++ toString alert_id_int ++ " acknowledged successfully", some req⟩
        else
          .ok ⟨"❌ Error: " ++ message.getD "Unknown error", some req⟩
      | .error (.httpStatusError code) =>
        .ok ⟨"❌ API Error: HTTP " ++ toString code ++ " - Alert may not exist", some req⟩
      | .error (.other msg) =>
        .ok ⟨"❌ Error: " ++ msg, some req⟩

/-- `unacknowledge_alert(alert_id)`. -/
def unacknowledge_alert (alert_id : String) (outcome : BackendOutcome) :
    Except PyErr OpResult :=
  if pyStrip alert_id = "" then .ok ⟨"❌ Error: Alert ID is required", none⟩
  else
    match pyInt (pyStrip alert_id) with
    | none => .ok ⟨"❌ Error: Alert ID must be a number, got: " ++ alert_id, none⟩
    | some alert_id_int =>
      let req : Request := ⟨.put, "/api/unacknowledge_alert/" ++ toString alert_id_int, .empty⟩
      match doRequest outcome with
      | .ok (status, message) =>
        if status = some "success" then
          .ok ⟨"✅ Alert #" ++ toString alert_id_int ++ " unacknowledged successfully", some req⟩
        else
          .ok ⟨"❌ Error: " ++ message.getD "Unknown error", some req⟩
      | .error (.httpStatusError code) =>
        .ok ⟨"❌ API Error: HTTP " ++ toString code ++ " - Alert may not exist", some req⟩
      | .error (.other msg) =>
        .ok ⟨"❌ Error: " ++ msg, some req⟩

/-- `close_alert(alert_id)`. -/
def close_alert (alert_id : String) (outcome : BackendOutcome) :
    Except PyErr OpResult :=
  if pyStrip alert_id = "" then .ok ⟨"❌ Error: Alert ID is required", none⟩
  else
    match pyInt (pyStrip alert_id) with
    | none => .ok ⟨"❌ Error: Alert ID must be a number, got: " ++ alert_id, none⟩
    | some alert_id_int =>
      let req : Request := ⟨.put, "/api/close_alert/" ++ toString alert_id_int, .empty⟩
      match doRequest outcome with
      | .ok (status, message) =>
        if status = some "success" then
          .ok ⟨"✅ Alert #" ++ toString alert_id_int ++ " closed successfully", some req⟩
        else
          .ok ⟨"❌ Error: " ++ message.getD "Unknown error", some req⟩
      | .error (.httpStatusError code) =>
        .ok ⟨"❌ API Error: HTTP " ++ toString code ++ " - Alert may not exist", some req⟩
      | .error (.other msg) =>
        .ok ⟨"❌ Error: " ++ msg, some req⟩

/-- The list comprehension
`[int(id.strip()) for id in ... if id.strip()]` applied to the kept
tokens: left to right, the first token whose `int` fails raises
`ValueError` (= `none`). -/
def parse_ids : List String → Option (List Int)
  | [] => some []
  | t :: ts =>
    match pyInt (pyStrip t) with
    | none => none
    | some n =>
      match parse_ids ts with
      | none => none
      | some ns => some (n :: ns)

/-- Identifier parsing shared by the two bulk operations: split on commas,
keep the tokens whose strip is non-empty, convert each with `int`. -/
def parse_id_list (alert_ids : String) : Option (List Int) :=
  parse_ids ((pySplitComma alert_ids).filter (fun t => !(pyStrip t == "")))

/-- `acknowledge_alerts_bulk(alert_ids)`. -/
def acknowledge_alerts_bulk (alert_ids : String) (outcome : BackendOutcome) :
    Except PyErr OpResult :=
  if pyStrip alert_ids = "" then
    .ok ⟨"❌ Error: Alert IDs are required (comma-separated)", none⟩
  else
    match parse_id_list alert_ids with
    | none => .ok ⟨"❌ Error: All alert IDs must be numbers", none⟩
    | some id_list =>
      if id_list = [] then .ok ⟨"❌ Error: No valid alert IDs provided", none⟩
      else
        let req : Request := ⟨.put, "/api/acknowledge_alerts_bulk/", .idsBody id_list⟩
        match doRequest outcome with
        | .ok (status, message) =>
          if status = some "success" then
            .ok ⟨"✅ " ++ toString id_list.length ++ " alerts acknowledged successfully: " ++
              toString id_list, some req⟩
          else
            .ok ⟨"❌ Error: " ++ message.getD "Unknown error", some req⟩
        | .error (.httpStatusError code) =>
          .ok ⟨"❌ API Error: HTTP " ++ toString code, some req⟩
        | .error (.other msg) =>
          .ok ⟨"❌ Error: " ++ msg, some req⟩

/-- `close_alerts_bulk(alert_ids)`. -/
def close_alerts_bulk (alert_ids : String) (outcome : BackendOutcome) :
    Except PyErr OpResult :=
  if pyStrip alert_ids = "" then
    .ok ⟨"❌ Error: Alert IDs are required (comma-separated)", none⟩
  else
    match parse_id_list alert_ids with
    | none => .ok ⟨"❌ Error: All alert IDs must be numbers", none⟩
    | some id_list =>
      if id_list = [] then .ok ⟨"❌ Error: No valid alert IDs provided", none⟩
      else
        let req : Request := ⟨.put, "/api/close_alerts_bulk/", .idsBody id_list⟩
        match doRequest outcome with
        | .ok (status, message) =>
          if status = some "success" then
            .ok ⟨"✅ " ++ toString id_list.length ++ " alerts closed successfully: " ++
              toString id_list, some req⟩
          else
            .ok ⟨"❌ Error: " ++ message.getD "Unknown error", some req⟩
        | .error (.httpStatusError code) =>
          .ok ⟨"❌ API Error: HTTP " ++ toString code, some req⟩
        | .error (.other msg) =>
          .ok ⟨"❌ Error: " ++ msg, some req⟩

/-- `close_expired_alerts()`: no arguments, no validation. -/
def close_expired_alerts (outcome : BackendOutcome) : Except PyErr OpResult :=
  let req : Request := ⟨.put, "/api/close_expired_alerts/", .empty⟩
  match doRequest outcome with
  | .ok (status, message) =>
    if status = some "success" then
      .ok ⟨"✅ " ++ message.getD "Expired alerts closed successfully", some req⟩
    else
      .ok ⟨"❌ Error: " ++ message.getD "Unknown error", some req⟩
  | .error (.httpStatusError code) =>
    .ok ⟨"❌ API Error: HTTP " ++ toString code, some req⟩
  | .error (.other msg) =>
    .ok ⟨"❌ Error: " ++ msg, some req⟩

/-! ### Helper lemmas -/

theorem create_alert_ok (location severity message source timestamp now : String)
    (outcome : BackendOutcome) :
    ∃ r, create_alert location severity message source timestamp now outcome = .ok r := by
  unfold create_alert
  repeat' split
  all_goals exact ⟨_, rfl⟩

theorem acknowledge_alert_ok (alert_id : String) (outcome : BackendOutcome) :
    ∃ r, acknowledge_alert alert_id outcome = .ok r := by
  unfold acknowledge_alert
  repeat' split
  all_goals exact ⟨_, rfl⟩

theorem unacknowledge_alert_ok (alert_id : String) (outcome : BackendOutcome) :
    ∃ r, unacknowledge_alert alert_id outcome = .ok r := by
  unfold unacknowledge_alert
  repeat' split
  all_goals exact ⟨_, rfl⟩

theorem close_alert_ok (alert_id : String) (outcome : BackendOutcome) :
    ∃ r, close_alert alert_id outcome = .ok r := by
  unfold close_alert
  repeat' split
  all_goals exact ⟨_, rfl⟩

theorem acknowledge_alerts_bulk_ok (alert_ids : String) (outcome : BackendOutcome) :
    ∃ r, acknowledge_alerts_bulk alert_ids outcome = .ok r := by
  unfold acknowledge_alerts_bulk
  repeat' split
  all_goals exact ⟨_, rfl⟩

theorem close_alerts_bulk_ok (alert_ids : String) (outcome : BackendOutcome) :
    ∃ r, close_alerts_bulk alert_ids outcome = .ok r := by
  unfold close_alerts_bulk
  repeat' split
  all_goals exact ⟨_, rfl⟩

theorem close_expired_alerts_ok (outcome : BackendOutcome) :
    ∃ r, close_expired_alerts outcome = .ok r := by
  unfold close_expired_alerts
  repeat' split
  all_goals exact ⟨_, rfl⟩

/-- If some kept token fails integer conversion, the whole comprehension
raises `ValueError`. -/
theorem parse_ids_eq_none {l : List String}
    (h : ∃ t ∈ l, pyInt (pyStrip t) = none) : parse_ids l = none := by
  induction l with
  | nil => simp at h
  | cons a l ih =>
    rcases h with ⟨t, ht, hnone⟩
    rcases List.mem_cons.mp ht with rfl | hmem
    · simp [parse_ids, hnone]
    · unfold parse_ids
      cases hpa : pyInt (pyStrip a) with
      | none => rfl
      | some n => rw [ih ⟨t, hmem, hnone⟩]

/-- If validation passes, a bulk acknowledge issues exactly one request
carrying the parsed identifier list. -/
theorem acknowledge_alerts_bulk_request (s : String) (o : BackendOutcome)
    (ids : List Int) (hs : pyStrip s ≠ "") (hp : parse_id_list s = some ids)
    (hne : ids ≠ []) :
    ∃ out, acknowledge_alerts_bulk s o =
      .ok ⟨out, some ⟨.put, "/api/acknowledge_alerts_bulk/", .idsBody ids⟩⟩ := by
  cases o <;> simp [acknowledge_alerts_bulk, hs, hp, hne, doRequest]
  all_goals first
    | exact ⟨_, rfl⟩
    | (split <;> exact ⟨_, rfl⟩)

/-- If validation passes, a bulk close issues exactly one request carrying
the parsed identifier list. -/
theorem close_alerts_bulk_request (s : String) (o : BackendOutcome)
    (ids : List Int) (hs : pyStrip s ≠ "") (hp : parse_id_list s = some ids)
    (hne : ids ≠ []) :
    ∃ out, close_alerts_bulk s o =
      .ok ⟨out, some ⟨.put, "/api/close_alerts_bulk/", .idsBody ids⟩⟩ := by
  cases o <;> simp [close_alerts_bulk, hs, hp, hne, doRequest]
  all_goals first
    | exact ⟨_, rfl⟩
    | (split <;> exact ⟨_, rfl⟩)

/-- A success result string: begins with the check-mark marker. -/
def successStr (s : String) : Prop := ∃ r, s = "✅" ++ r

/-- A failure result string: begins with the cross marker. -/
def failureStr (s : String) : Prop := ∃ r, s = "❌" ++ r

/-- `sub` occurs (contiguously) inside `s`. -/
def strContains (s sub : String) : Prop := ∃ pre post, s = pre ++ sub ++ post

theorem successStr_append (s t : String) (h : successStr s) : successStr (s ++ t) := by
  rcases h with ⟨r, rfl⟩
  exact ⟨r ++ t, String.append_assoc _ _ _⟩

theorem failureStr_append (s t : String) (h : failureStr s) : failureStr (s ++ t) := by
  rcases h with ⟨r, rfl⟩
  exact ⟨r ++ t, String.append_assoc _ _ _⟩

theorem strContains_mid (pre sub post : String) : strContains (pre ++ sub ++ post) sub :=
  ⟨pre, post, rfl⟩

theorem strContains_right (pre sub : String) : strContains (pre ++ sub) sub :=
  ⟨pre, "", by rw [String.append_empty]⟩

theorem successStr_createSuccessString (location severity message source timestamp : String) :
    successStr (createSuccessString location severity message source timestamp) := by
  unfold createSuccessString
  repeat' apply successStr_append
  exact ⟨" Alert Created Successfully\n📍 Location: ", by decide⟩

theorem create_alert_success (location severity message source timestamp now : String)
    (m : Option String)
    (hl : pyStrip location ≠ "") (hsev : pyStrip severity ≠ "")
    (hm : pyStrip message ≠ "") (hsrc : pyStrip source ≠ "")
    (hv : validate_severity severity = true) :
    create_alert location severity message source timestamp now (.body (some "success") m) =
      .ok ⟨createSuccessString location severity message source
            (if pyStrip timestamp = "" then now else pyStrip timestamp),
          some ⟨.post, "/api/create_alert/",
            .createBody (pyStrip location) (pyStrip severity) (pyStrip message)
              (pyStrip source)
              (if pyStrip timestamp = "" then now else pyStrip timestamp)⟩⟩ := by
  simp [create_alert, hl, hsev, hm, hsrc, hv, doRequest]

theorem create_alert_badStatus (location severity message source timestamp now : String)
    (st m : Option String)
    (hl : pyStrip location ≠ "") (hsev : pyStrip severity ≠ "")
    (hm : pyStrip message ≠ "") (hsrc : pyStrip source ≠ "")
    (hv : validate_severity severity = true) (hst : st ≠ some "success") :
    create_alert location severity message source timestamp now (.body st m) =
      .ok ⟨"❌ Error: " ++ m.getD "Unknown error",
          some ⟨.post, "/api/create_alert/",
            .createBody (pyStrip location) (pyStrip severity) (pyStrip message)
              (pyStrip source)
              (if pyStrip timestamp = "" then now else pyStrip timestamp)⟩⟩ := by
  simp [create_alert, hl, hsev, hm, hsrc, hv, hst, doRequest]

theorem create_alert_httpError (location severity message source timestamp now : String)
    (c : Nat)
    (hl : pyStrip location ≠ "") (hsev : pyStrip severity ≠ "")
    (hm : pyStrip message ≠ "") (hsrc : pyStrip source ≠ "")
    (hv : validate_severity severity = true) :
    create_alert location severity message source timestamp now (.httpError c) =
      .ok ⟨"❌ API Error: HTTP " ++ toString c,
          some ⟨.post, "/api/create_alert/",
            .createBody (pyStrip location) (pyStrip severity) (pyStrip message)
              (pyStrip source)
              (if pyStrip timestamp = "" then now else pyStrip timestamp)⟩⟩ := by
  simp [create_alert, hl, hsev, hm, hsrc, hv, doRequest]

theorem acknowledge_alert_success (alert_id : String) (n : Int) (m : Option String)
    (ha : pyStrip alert_id ≠ "") (hn : pyInt (pyStrip alert_id) = some n) :
    acknowledge_alert alert_id (.body (some "success") m) =
      .ok ⟨"✅ Alert #" ++ toString n ++ " acknowledged successfully",
          some ⟨.put, "/api/acknowledge_alert/" ++ toString n, .empty⟩⟩ := by
  simp [acknowledge_alert, ha, hn, doRequest]

theorem acknowledge_alert_badStatus (alert_id : String) (n : Int) (st m : Option String)
    (ha : pyStrip alert_id ≠ "") (hn : pyInt (pyStrip alert_id) = some n)
    (hst : st ≠ some "success") :
    acknowledge_alert alert_id (.body st m) =
      .ok ⟨"❌ Error: " ++ m.getD "Unknown error",
          some ⟨.put, "/api/acknowledge_alert/" ++ toString n, .empty⟩⟩ := by
  simp [acknowledge_alert, ha, hn, hst, doRequest]

theorem acknowledge_alert_httpError (alert_id : String) (n : Int) (c : Nat)
    (ha : pyStrip alert_id ≠ "") (hn : pyInt (pyStrip alert_id) = some n) :
    acknowledge_alert alert_id (.httpError c) =
      .ok ⟨"❌ API Error: HTTP " ++ toString c ++ " - Alert may not exist",
          some ⟨.put, "/api/acknowledge_alert/" ++ toString n, .empty⟩⟩ := by
  simp [acknowledge_alert, ha, hn, doRequest]

theorem unacknowledge_alert_success (alert_id : String) (n : Int) (m : Option String)
    (ha : pyStrip alert_id ≠ "") (hn : pyInt (pyStrip alert_id) = some n) :
    unacknowledge_alert alert_id (.body (some "success") m) =
      .ok ⟨"✅ Alert #" ++ toString n ++ " unacknowledged successfully",
          some ⟨.put, "/api/unacknowledge_alert/" ++ toString n, .empty⟩⟩ := by
  simp [unacknowledge_alert, ha, hn, doRequest]

theorem unacknowledge_alert_badStatus (alert_id : String) (n : Int) (st m : Option String)
    (ha : pyStrip alert_id ≠ "") (hn : pyInt (pyStrip alert_id) = some n)
    (hst : st ≠ some "success") :
    unacknowledge_alert alert_id (.body st m) =
      .ok ⟨"❌ Error: " ++ m.getD "Unknown error",
          some ⟨.put, "/api/unacknowledge_alert/" ++ toString n, .empty⟩⟩ := by
  simp [unacknowledge_alert, ha, hn, hst, doRequest]

theorem unacknowledge_alert_httpError (alert_id : String) (n : Int) (c : Nat)
    (ha : pyStrip alert_id ≠ "") (hn : pyInt (pyStrip alert_id) = some n) :
    unacknowledge_alert alert_id (.httpError c) =
      .ok ⟨"❌ API Error: HTTP " ++ toString c ++ " - Alert may not exist",
          some ⟨.put, "/api/unacknowledge_alert/" ++ toString n, .empty⟩⟩ := by
  simp [unacknowledge_alert, ha, hn, doRequest]

theorem close_alert_success (alert_id : String) (n : Int) (m : Option String)
    (ha : pyStrip alert_id ≠ "") (hn : pyInt (pyStrip alert_id) = some n) :
    close_alert alert_id (.body (some "success") m) =
      .ok ⟨"✅ Alert #" ++ toString n ++ " closed successfully",
          some ⟨.put, "/api/close_alert/" ++ toString n, .empty⟩⟩ := by
  simp [close_alert, ha, hn, doRequest]

theorem close_alert_badStatus (alert_id : String) (n : Int) (st m : Option String)
    (ha : pyStrip alert_id ≠ "") (hn : pyInt (pyStrip alert_id) = some n)
    (hst : st ≠ some "success") :
    close_alert alert_id (.body st m) =
      .ok ⟨"❌ Error: " ++ m.getD "Unknown error",
          some ⟨.put, "/api/close_alert/" ++ toString n, .empty⟩⟩ := by
  simp [close_alert, ha, hn, hst, doRequest]

theorem close_alert_httpError (alert_id : String) (n : Int) (c : Nat)
    (ha : pyStrip alert_id ≠ "") (hn : pyInt (pyStrip alert_id) = some n) :
    close_alert alert_id (.httpError c) =
      .ok ⟨"❌ API Error: HTTP " ++ toString c ++ " - Alert may not exist",
          some ⟨.put, "/api/close_alert/" ++ toString n, .empty⟩⟩ := by
  simp [close_alert, ha, hn, doRequest]

theorem acknowledge_alerts_bulk_success (alert_ids : String) (ids : List Int)
    (m : Option String) (hbs : pyStrip alert_ids ≠ "")
    (hbp : parse_id_list alert_ids = some ids) (hbne : ids ≠ []) :
    acknowledge_alerts_bulk alert_ids (.body (some "success") m) =
      .ok ⟨"✅ " ++ toString ids.length ++ " alerts acknowledged successfully: " ++
            toString ids,
          some ⟨.put, "/api/acknowledge_alerts_bulk/", .idsBody ids⟩⟩ := by
  simp [acknowledge_alerts_bulk, hbs, hbp, hbne, doRequest]

theorem acknowledge_alerts_bulk_badStatus (alert_ids : String) (ids : List Int)
    (st m : Option String) (hbs : pyStrip alert_ids ≠ "")
    (hbp : parse_id_list alert_ids = some ids) (hbne : ids ≠ [])
    (hst : st ≠ some "success") :
    acknowledge_alerts_bulk alert_ids (.body st m) =
      .ok ⟨"❌ Error: " ++ m.getD "Unknown error",
          some ⟨.put, "/api/acknowledge_alerts_bulk/", .idsBody ids⟩⟩ := by
  simp [acknowledge_alerts_bulk, hbs, hbp, hbne, hst, doRequest]

theorem acknowledge_alerts_bulk_httpError (alert_ids : String) (ids : List Int) (c : Nat)
    (hbs : pyStrip alert_ids ≠ "") (hbp : parse_id_list alert_ids = some ids)
    (hbne : ids ≠ []) :
    acknowledge_alerts_bulk alert_ids (.httpError c) =
      .ok ⟨"❌ API Error: HTTP " ++ toString c,
          some ⟨.put, "/api/acknowledge_alerts_bulk/", .idsBody ids⟩⟩ := by
  simp [acknowledge_alerts_bulk, hbs, hbp, hbne, doRequest]

theorem close_alerts_bulk_success (alert_ids : String) (ids : List Int)
    (m : Option String) (hbs : pyStrip alert_ids ≠ "")
    (hbp : parse_id_list alert_ids = some ids) (hbne : ids ≠ []) :
    close_alerts_bulk alert_ids (.body (some "success") m) =
      .ok ⟨"✅ " ++ toString ids.length ++ " alerts closed successfully: " ++ toString ids,
          some ⟨.put, "/api/close_alerts_bulk/", .idsBody ids⟩⟩ := by
  simp [close_alerts_bulk, hbs, hbp, hbne, doRequest]

theorem close_alerts_bulk_badStatus (alert_ids : String) (ids : List Int)
    (st m : Option String) (hbs : pyStrip alert_ids ≠ "")
    (hbp : parse_id_list alert_ids = some ids) (hbne : ids ≠ [])
    (hst : st ≠ some "success") :
    close_alerts_bulk alert_ids (.body st m) =
      .ok ⟨"❌ Error: " ++ m.getD "Unknown error",
          some ⟨.put, "/api/close_alerts_bulk/", .idsBody ids⟩⟩ := by
  simp [close_alerts_bulk, hbs, hbp, hbne, hst, doRequest]

theorem close_alerts_bulk_httpError (alert_ids : String) (ids : List Int) (c : Nat)
    (hbs : pyStrip alert_ids ≠ "") (hbp : parse_id_list alert_ids = some ids)
    (hbne : ids ≠ []) :
    close_alerts_bulk alert_ids (.httpError c) =
      .ok ⟨"❌ API Error: HTTP " ++ toString c,
          some ⟨.put, "/api/close_alerts_bulk/", .idsBody ids⟩⟩ := by
  simp [close_alerts_bulk, hbs, hbp, hbne, doRequest]

theorem close_expired_alerts_success (m : Option String) :
    close_expired_alerts (.body (some "success") m) =
      .ok ⟨"✅ " ++ m.getD "Expired alerts closed successfully",
          some ⟨.put, "/api/close_expired_alerts/", .empty⟩⟩ := by
  simp [close_expired_alerts, doRequest]

theorem close_expired_alerts_badStatus (st m : Option String) (hst : st ≠ some "success") :
    close_expired_alerts (.body st m) =
      .ok ⟨"❌ Error: " ++ m.getD "Unknown error",
          some ⟨.put, "/api/close_expired_alerts/", .empty⟩⟩ := by
  simp [close_expired_alerts, hst, doRequest]

theorem close_expired_alerts_httpError (c : Nat) :
    close_expired_alerts (.httpError c) =
      .ok ⟨"❌ API Error: HTTP " ++ toString c,
          some ⟨.put, "/api/close_expired_alerts/", .empty⟩⟩ := by
  simp [close_expired_alerts, doRequest]

/-- If validation passes, `create_alert` issues exactly one POST request
with the stripped fields and the chosen timestamp, whatever the backend
outcome. -/
theorem create_alert_request (location severity message source timestamp now : String)
    (o : BackendOutcome)
    (hl : pyStrip location ≠ "") (hsev : pyStrip severity ≠ "")
    (hm : pyStrip message ≠ "") (hsrc : pyStrip source ≠ "")
    (hv : validate_severity severity = true) :
    ∃ out, create_alert location severity message source timestamp now o =
      .ok ⟨out, some ⟨.post, "/api/create_alert/",
        .createBody (pyStrip location) (pyStrip severity) (pyStrip message)
          (pyStrip source)
          (if pyStrip timestamp = "" then now else pyStrip timestamp)⟩⟩ := by
  cases o <;> simp [create_alert, hl, hsev, hm, hsrc, hv, doRequest]
  all_goals first
    | exact ⟨_, rfl⟩
    | (split <;> exact ⟨_, rfl⟩)

/-- The original (unstripped) location, severity, message and source
arguments each occur verbatim inside the create success string. -/
theorem strContains_createSuccessString
    (location severity message source timestamp : String) :
    strContains (createSuccessString location severity message source timestamp)
      location ∧
    strContains (createSuccessString location severity message source timestamp)
      severity ∧
    strContains (createSuccessString location severity message source timestamp)
      message ∧
    strContains (createSuccessString location severity message source timestamp)
      source := by
  refine ⟨⟨"✅ Alert Created Successfully\n📍 Location: ",
      "\n⚠️ Severity: " ++ severity ++ "\n💬 Message: " ++ message ++
        "\n🔗 Source: " ++ source ++ "\n⏱️ Timestamp: " ++ timestamp, ?_⟩,
    ⟨"✅ Alert Created Successfully\n📍 Location: " ++ location ++ "\n⚠️ Severity: ",
      "\n💬 Message: " ++ message ++ "\n🔗 Source: " ++ source ++
        "\n⏱️ Timestamp: " ++ timestamp, ?_⟩,
    ⟨"✅ Alert Created Successfully\n📍 Location: " ++ location ++ "\n⚠️ Severity: " ++
        severity ++ "\n💬 Message: ",
      "\n🔗 Source: " ++ source ++ "\n⏱️ Timestamp: " ++ timestamp, ?_⟩,
    ⟨"✅ Alert Created Successfully\n📍 Location: " ++ location ++ "\n⚠️ Severity: " ++
        severity ++ "\n💬 Message: " ++ message ++ "\n🔗 Source: ",
      "\n⏱️ Timestamp: " ++ timestamp, ?_⟩⟩ <;>
  simp [createSuccessString, String.append_assoc]

/-! ### Claim theorems -/

/-- C1: for every one of the seven operations, every input and every
backend outcome (validation failure, backend body with non-success
status, HTTP error status, connection failure, timeout, undecodable
response body), the operation returns a string result (`Except.ok`) and
never raises or propagates an exception (`Except.error`) to the caller. -/
theorem C1_never_raises
    (location severity message source timestamp now alert_id alert_ids : String)
    (outcome : BackendOutcome) :
    (∃ r, create_alert location severity message source timestamp now outcome = .ok r) ∧
    (∃ r, acknowledge_alert alert_id outcome = .ok r) ∧
    (∃ r, acknowledge_alerts_bulk alert_ids outcome = .ok r) ∧
    (∃ r, unacknowledge_alert alert_id outcome = .ok r) ∧
    (∃ r, close_alert alert_id outcome = .ok r) ∧
    (∃ r, close_alerts_bulk alert_ids outcome = .ok r) ∧
    (∃ r, close_expired_alerts outcome = .ok r) :=
  ⟨create_alert_ok location severity message source timestamp now outcome,
   acknowledge_alert_ok alert_id outcome,
   acknowledge_alerts_bulk_ok alert_ids outcome,
   unacknowledge_alert_ok alert_id outcome,
   close_alert_ok alert_id outcome,
   close_alerts_bulk_ok alert_ids outcome,
   close_expired_alerts_ok outcome⟩

/-- C2: for every operation with required fields (create, acknowledge,
unacknowledge, close, and the two bulk operations), a missing or blank
(empty or whitespace-only) required field — checked in source order for
create — yields a failure string identifying that field and a result with
`request = none`: the validation happens before any network I/O, and zero
network calls are performed. -/
theorem C2_validation_before_network
    (location severity message source timestamp now alert_id alert_ids : String)
    (outcome : BackendOutcome) :
    (pyStrip location = "" →
      create_alert location severity message source timestamp now outcome =
        .ok ⟨"❌ Error: Location is required", none⟩) ∧
    (pyStrip location ≠ "" → pyStrip severity = "" →
      create_alert location severity message source timestamp now outcome =
        .ok ⟨"❌ Error: Severity is required", none⟩) ∧
    (pyStrip location ≠ "" → pyStrip severity ≠ "" → pyStrip message = "" →
      create_alert location severity message source timestamp now outcome =
        .ok ⟨"❌ Error: Message is required", none⟩) ∧
    (pyStrip location ≠ "" → pyStrip severity ≠ "" → pyStrip message ≠ "" →
      pyStrip source = "" →
      create_alert location severity message source timestamp now outcome =
        .ok ⟨"❌ Error: Source is required", none⟩) ∧
    (pyStrip alert_id = "" →
      acknowledge_alert alert_id outcome = .ok ⟨"❌ Error: Alert ID is required", none⟩) ∧
    (pyStrip alert_id = "" →
      unacknowledge_alert alert_id outcome = .ok ⟨"❌ Error: Alert ID is required", none⟩) ∧
    (pyStrip alert_id = "" →
      close_alert alert_id outcome = .ok ⟨"❌ Error: Alert ID is required", none⟩) ∧
    (pyStrip alert_ids = "" →
      acknowledge_alerts_bulk alert_ids outcome =
        .ok ⟨"❌ Error: Alert IDs are required (comma-separated)", none⟩) ∧
    (pyStrip alert_ids = "" →
      close_alerts_bulk alert_ids outcome =
        .ok ⟨"❌ Error: Alert IDs are required (comma-separated)", none⟩) :=
  ⟨fun h => by simp [create_alert, h],
   fun h1 h2 => by simp [create_alert, h1, h2],
   fun h1 h2 h3 => by simp [create_alert, h1, h2, h3],
   fun h1 h2 h3 h4 => by simp [create_alert, h1, h2, h3, h4],
   fun h => by simp [acknowledge_alert, h],
   fun h => by simp [unacknowledge_alert, h],
   fun h => by simp [close_alert, h],
   fun h => by simp [acknowledge_alerts_bulk, h],
   fun h => by simp [close_alerts_bulk, h]⟩

/-- Witness for C2: each blank-field case exercised at a concrete input. -/
theorem C2_validation_before_network_witness :
    create_alert "" "CRITICAL" "m" "s" "" "T" (.body none none) =
      .ok ⟨"❌ Error: Location is required", none⟩ ∧
    create_alert "L" " " "m" "s" "" "T" (.body none none) =
      .ok ⟨"❌ Error: Severity is required", none⟩ ∧
    create_alert "L" "CRITICAL" "" "s" "" "T" (.body none none) =
      .ok ⟨"❌ Error: Message is required", none⟩ ∧
    create_alert "L" "CRITICAL" "m" " " "" "T" (.body none none) =
      .ok ⟨"❌ Error: Source is required", none⟩ ∧
    acknowledge_alert "" (.body none none) = .ok ⟨"❌ Error: Alert ID is required", none⟩ ∧
    unacknowledge_alert " " (.body none none) = .ok ⟨"❌ Error: Alert ID is required", none⟩ ∧
    close_alert "" (.body none none) = .ok ⟨"❌ Error: Alert ID is required", none⟩ ∧
    acknowledge_alerts_bulk "" (.body none none) =
      .ok ⟨"❌ Error: Alert IDs are required (comma-separated)", none⟩ ∧
    close_alerts_bulk " " (.body none none) =
      .ok ⟨"❌ Error: Alert IDs are required (comma-separated)", none⟩ :=
  ⟨(C2_validation_before_network "" "CRITICAL" "m" "s" "" "T" "" "" (.body none none)).1
      (by decide),
   (C2_validation_before_network "L" " " "m" "s" "" "T" "" "" (.body none none)).2.1
      (by decide) (by decide),
   (C2_validation_before_network "L" "CRITICAL" "" "s" "" "T" "" "" (.body none none)).2.2.1
      (by decide) (by decide) (by decide),
   (C2_validation_before_network "L" "CRITICAL" "m" " " "" "T" "" "" (.body none none)).2.2.2.1
      (by decide) (by decide) (by decide) (by decide),
   (C2_validation_before_network "L" "CRITICAL" "m" "s" "" "T" "" "" (.body none none)).2.2.2.2.1
      (by decide),
   (C2_validation_before_network "L" "CRITICAL" "m" "s" "" "T" " " "" (.body none none)).2.2.2.2.2.1
      (by decide),
   (C2_validation_before_network "L" "CRITICAL" "m" "s" "" "T" "" "" (.body none none)).2.2.2.2.2.2.1
      (by decide),
   (C2_validation_before_network "L" "CRITICAL" "m" "s" "" "T" "" "" (.body none none)).2.2.2.2.2.2.2.1
      (by decide),
   (C2_validation_before_network "L" "CRITICAL" "m" "s" "" "T" "" " " (.body none none)).2.2.2.2.2.2.2.2
      (by decide)⟩

/-- C3: for every `alert_ids` string the bulk operations split on commas,
trim each token, drop the empty tokens, and require every remaining token
to parse as an integer; a non-numeric kept token or an empty resulting
list yields a failure string with zero network calls; in particular
`"1, 2, , 3"` parses to [1, 2, 3] and issues exactly one bulk request
containing them, and `"1,x,3"` issues no network call. -/
theorem C3_bulk_id_parsing (s : String) (o : BackendOutcome) :
    ((∃ t ∈ (pySplitComma s).filter (fun t => !(pyStrip t == "")),
        pyInt (pyStrip t) = none) → pyStrip s ≠ "" →
      acknowledge_alerts_bulk s o =
        .ok ⟨"❌ Error: All alert IDs must be numbers", none⟩ ∧
      close_alerts_bulk s o =
        .ok ⟨"❌ Error: All alert IDs must be numbers", none⟩) ∧
    (pyStrip s ≠ "" → parse_id_list s = some [] →
      acknowledge_alerts_bulk s o =
        .ok ⟨"❌ Error: No valid alert IDs provided", none⟩ ∧
      close_alerts_bulk s o =
        .ok ⟨"❌ Error: No valid alert IDs provided", none⟩) ∧
    (pyStrip s ≠ "" → ∀ ids, parse_id_list s = some ids → ids ≠ [] →
      ∃ out, acknowledge_alerts_bulk s o =
        .ok ⟨out, some ⟨.put, "/api/acknowledge_alerts_bulk/", .idsBody ids⟩⟩) ∧
    parse_id_list "1, 2, , 3" = some [1, 2, 3] ∧
    (∃ out, acknowledge_alerts_bulk "1, 2, , 3" o =
      .ok ⟨out, some ⟨.put, "/api/acknowledge_alerts_bulk/", .idsBody [1, 2, 3]⟩⟩) ∧
    acknowledge_alerts_bulk "1,x,3" o =
      .ok ⟨"❌ Error: All alert IDs must be numbers", none⟩ := by
  refine ⟨?_, ?_, ?_, by decide, ?_, ?_⟩
  · intro hex hs
    have hp : parse_id_list s = none := parse_ids_eq_none hex
    exact ⟨by simp [acknowledge_alerts_bulk, hs, hp],
           by simp [close_alerts_bulk, hs, hp]⟩
  · intro hs hp
    exact ⟨by simp [acknowledge_alerts_bulk, hs, hp],
           by simp [close_alerts_bulk, hs, hp]⟩
  · intro hs ids hp hne
    exact acknowledge_alerts_bulk_request s o ids hs hp hne
  · exact acknowledge_alerts_bulk_request "1, 2, , 3" o [1, 2, 3] (by decide)
      (by decide) (by decide)
  · have hp : parse_id_list "1,x,3" = none := by decide
    cases o <;> simp [acknowledge_alerts_bulk, hp] <;> decide

/-- Witness for C3: the hypotheses discharged at concrete inputs. -/
theorem C3_bulk_id_parsing_witness :
    acknowledge_alerts_bulk "1,x,3" (.body none none) =
      .ok ⟨"❌ Error: All alert IDs must be numbers", none⟩ ∧
    close_alerts_bulk "1,x,3" (.body none none) =
      .ok ⟨"❌ Error: All alert IDs must be numbers", none⟩ ∧
    acknowledge_alerts_bulk " , " (.body none none) =
      .ok ⟨"❌ Error: No valid alert IDs provided", none⟩ ∧
    (∃ out, acknowledge_alerts_bulk "1, 2, , 3" (.body (some "success") none) =
      .ok ⟨out, some ⟨.put, "/api/acknowledge_alerts_bulk/", .idsBody [1, 2, 3]⟩⟩) :=
  ⟨((C3_bulk_id_parsing "1,x,3" (.body none none)).1 (by decide) (by decide)).1,
   ((C3_bulk_id_parsing "1,x,3" (.body none none)).1 (by decide) (by decide)).2,
   ((C3_bulk_id_parsing " , " (.body none none)).2.1 (by decide) (by decide)).1,
   (C3_bulk_id_parsing "1, 2, , 3" (.body (some "success") none)).2.2.1 (by decide)
     [1, 2, 3] (by decide) (by decide)⟩

/-- C4: for every operation that reaches the network, an HTTP success
response is further inspected for the body's `status` field: `"success"`
yields a success string; anything else yields the failure string built
from the body's `message` field when present (else the fallback
`"Unknown error"`); and a non-success HTTP status yields a failure string
containing the numeric status code, the body never being consulted
(`raise_for_status` fires before `response.json()`).  Concretely,
`close_alert "42"` returns a success string containing "42" on
HTTP 200 + `{"status":"success"}`, a failure string containing
"not found" on HTTP 200 + `{"status":"error","message":"not found"}`,
and a failure string containing "404" on HTTP 404. -/
theorem C4_status_field_inspection
    (location severity message source timestamp now alert_id alert_ids : String)
    (n : Int) (ids : List Int)
    (hl : pyStrip location ≠ "") (hsev : pyStrip severity ≠ "")
    (hm : pyStrip message ≠ "") (hsrc : pyStrip source ≠ "")
    (hv : validate_severity severity = true)
    (ha : pyStrip alert_id ≠ "") (hn : pyInt (pyStrip alert_id) = some n)
    (hbs : pyStrip alert_ids ≠ "") (hbp : parse_id_list alert_ids = some ids)
    (hbne : ids ≠ []) :
    (∀ m, ∃ out req,
      create_alert location severity message source timestamp now
        (.body (some "success") m) = .ok ⟨out, some req⟩ ∧ successStr out) ∧
    (∀ st m, st ≠ some "success" → ∃ req,
      create_alert location severity message source timestamp now (.body st m) =
        .ok ⟨"❌ Error: " ++ m.getD "Unknown error", some req⟩) ∧
    (∀ c, ∃ out req,
      create_alert location severity message source timestamp now (.httpError c) =
        .ok ⟨out, some req⟩ ∧ failureStr out ∧ strContains out (toString c)) ∧
    (∀ m, ∃ out req, acknowledge_alert alert_id (.body (some "success") m) =
        .ok ⟨out, some req⟩ ∧ successStr out) ∧
    (∀ st m, st ≠ some "success" → ∃ req, acknowledge_alert alert_id (.body st m) =
        .ok ⟨"❌ Error: " ++ m.getD "Unknown error", some req⟩) ∧
    (∀ c, ∃ out req, acknowledge_alert alert_id (.httpError c) =
        .ok ⟨out, some req⟩ ∧ failureStr out ∧ strContains out (toString c)) ∧
    (∀ m, ∃ out req, unacknowledge_alert alert_id (.body (some "success") m) =
        .ok ⟨out, some req⟩ ∧ successStr out) ∧
    (∀ st m, st ≠ some "success" → ∃ req, unacknowledge_alert alert_id (.body st m) =
        .ok ⟨"❌ Error: " ++ m.getD "Unknown error", some req⟩) ∧
    (∀ c, ∃ out req, unacknowledge_alert alert_id (.httpError c) =
        .ok ⟨out, some req⟩ ∧ failureStr out ∧ strContains out (toString c)) ∧
    (∀ m, ∃ out req, close_alert alert_id (.body (some "success") m) =
        .ok ⟨out, some req⟩ ∧ successStr out) ∧
    (∀ st m, st ≠ some "success" → ∃ req, close_alert alert_id (.body st m) =
        .ok ⟨"❌ Error: " ++ m.getD "Unknown error", some req⟩) ∧
    (∀ c, ∃ out req, close_alert alert_id (.httpError c) =
        .ok ⟨out, some req⟩ ∧ failureStr out ∧ strContains out (toString c)) ∧
    (∀ m, ∃ out req, acknowledge_alerts_bulk alert_ids (.body (some "success") m) =
        .ok ⟨out, some req⟩ ∧ successStr out) ∧
    (∀ st m, st ≠ some "success" → ∃ req, acknowledge_alerts_bulk alert_ids (.body st m) =
        .ok ⟨"❌ Error: " ++ m.getD "Unknown error", some req⟩) ∧
    (∀ c, ∃ out req, acknowledge_alerts_bulk alert_ids (.httpError c) =
        .ok ⟨out, some req⟩ ∧ failureStr out ∧ strContains out (toString c)) ∧
    (∀ m, ∃ out req, close_alerts_bulk alert_ids (.body (some "success") m) =
        .ok ⟨out, some req⟩ ∧ successStr out) ∧
    (∀ st m, st ≠ some "success" → ∃ req, close_alerts_bulk alert_ids (.body st m) =
        .ok ⟨"❌ Error: " ++ m.getD "Unknown error", some req⟩) ∧
    (∀ c, ∃ out req, close_alerts_bulk alert_ids (.httpError c) =
        .ok ⟨out, some req⟩ ∧ failureStr out ∧ strContains out (toString c)) ∧
    (∀ m, ∃ out req, close_expired_alerts (.body (some "success") m) =
        .ok ⟨out, some req⟩ ∧ successStr out) ∧
    (∀ st m, st ≠ some "success" → ∃ req, close_expired_alerts (.body st m) =
        .ok ⟨"❌ Error: " ++ m.getD "Unknown error", some req⟩) ∧
    (∀ c, ∃ out req, close_expired_alerts (.httpError c) =
        .ok ⟨out, some req⟩ ∧ failureStr out ∧ strContains out (toString c)) ∧
    (close_alert "42" (.body (some "success") none) =
        .ok ⟨"✅ Alert #42 closed successfully",
          some ⟨.put, "/api/close_alert/42", .empty⟩⟩ ∧
      strContains "✅ Alert #42 closed successfully" "42") ∧
    (close_alert "42" (.body (some "error") (some "not found")) =
        .ok ⟨"❌ Error: not found", some ⟨.put, "/api/close_alert/42", .empty⟩⟩ ∧
      strContains "❌ Error: not found" "not found") ∧
    (close_alert "42" (.httpError 404) =
        .ok ⟨"❌ API Error: HTTP 404 - Alert may not exist",
          some ⟨.put, "/api/close_alert/42", .empty⟩⟩ ∧
      strContains "❌ API Error: HTTP 404 - Alert may not exist" "404") := by
  refine ⟨?_, ?_, ?_, ?_, ?_, ?_, ?_, ?_, ?_, ?_, ?_, ?_, ?_, ?_, ?_, ?_, ?_, ?_,
    ?_, ?_, ?_, ?_, ?_, ?_⟩
  · intro m
    exact ⟨_, _, create_alert_success location severity message source timestamp now m
      hl hsev hm hsrc hv, successStr_createSuccessString _ _ _ _ _⟩
  · intro st m hst
    exact ⟨_, create_alert_badStatus location severity message source timestamp now st m
      hl hsev hm hsrc hv hst⟩
  · intro c
    refine ⟨_, _, create_alert_httpError location severity message source timestamp now c
      hl hsev hm hsrc hv, ?_, strContains_right _ _⟩
    exact failureStr_append _ _ ⟨" API Error: HTTP ", by decide⟩
  · intro m
    refine ⟨_, _, acknowledge_alert_success alert_id n m ha hn, ?_⟩
    repeat' apply successStr_append
    exact ⟨" Alert #", by decide⟩
  · intro st m hst
    exact ⟨_, acknowledge_alert_badStatus alert_id n st m ha hn hst⟩
  · intro c
    refine ⟨_, _, acknowledge_alert_httpError alert_id n c ha hn, ?_, strContains_mid _ _ _⟩
    repeat' apply failureStr_append
    exact ⟨" API Error: HTTP ", by decide⟩
  · intro m
    refine ⟨_, _, unacknowledge_alert_success alert_id n m ha hn, ?_⟩
    repeat' apply successStr_append
    exact ⟨" Alert #", by decide⟩
  · intro st m hst
    exact ⟨_, unacknowledge_alert_badStatus alert_id n st m ha hn hst⟩
  · intro c
    refine ⟨_, _, unacknowledge_alert_httpError alert_id n c ha hn, ?_, strContains_mid _ _ _⟩
    repeat' apply failureStr_append
    exact ⟨" API Error: HTTP ", by decide⟩
  · intro m
    refine ⟨_, _, close_alert_success alert_id n m ha hn, ?_⟩
    repeat' apply successStr_append
    exact ⟨" Alert #", by decide⟩
  · intro st m hst
    exact ⟨_, close_alert_badStatus alert_id n st m ha hn hst⟩
  · intro c
    refine ⟨_, _, close_alert_httpError alert_id n c ha hn, ?_, strContains_mid _ _ _⟩
    repeat' apply failureStr_append
    exact ⟨" API Error: HTTP ", by decide⟩
  · intro m
    refine ⟨_, _, acknowledge_alerts_bulk_success alert_ids ids m hbs hbp hbne, ?_⟩
    repeat' apply successStr_append
    exact ⟨" ", by decide⟩
  · intro st m hst
    exact ⟨_, acknowledge_alerts_bulk_badStatus alert_ids ids st m hbs hbp hbne hst⟩
  · intro c
    refine ⟨_, _, acknowledge_alerts_bulk_httpError alert_ids ids c hbs hbp hbne,
      ?_, strContains_right _ _⟩
    exact failureStr_append _ _ ⟨" API Error: HTTP ", by decide⟩
  · intro m
    refine ⟨_, _, close_alerts_bulk_success alert_ids ids m hbs hbp hbne, ?_⟩
    repeat' apply successStr_append
    exact ⟨" ", by decide⟩
  · intro st m hst
    exact ⟨_, close_alerts_bulk_badStatus alert_ids ids st m hbs hbp hbne hst⟩
  · intro c
    refine ⟨_, _, close_alerts_bulk_httpError alert_ids ids c hbs hbp hbne,
      ?_, strContains_right _ _⟩
    exact failureStr_append _ _ ⟨" API Error: HTTP ", by decide⟩
  · intro m
    exact ⟨_, _, close_expired_alerts_success m, successStr_append _ _ ⟨" ", by decide⟩⟩
  · intro st m hst
    exact ⟨_, close_expired_alerts_badStatus st m hst⟩
  · intro c
    refine ⟨_, _, close_expired_alerts_httpError c, ?_, strContains_right _ _⟩
    exact failureStr_append _ _ ⟨" API Error: HTTP ", by decide⟩
  · exact ⟨rfl, ⟨"✅ Alert #", " closed successfully", by decide⟩⟩
  · exact ⟨rfl, ⟨"❌ Error: ", "", by decide⟩⟩
  · exact ⟨rfl, ⟨"❌ API Error: HTTP ", " - Alert may not exist", by decide⟩⟩

/-- Witness for C4: all hypotheses discharged at concrete inputs; the
three concrete `close_alert "42"` behaviours extracted. -/
theorem C4_status_field_inspection_witness :
    (close_alert "42" (.body (some "success") none) =
        .ok ⟨"✅ Alert #42 closed successfully",
          some ⟨.put, "/api/close_alert/42", .empty⟩⟩ ∧
      strContains "✅ Alert #42 closed successfully" "42") ∧
    (close_alert "42" (.body (some "error") (some "not found")) =
        .ok ⟨"❌ Error: not found", some ⟨.put, "/api/close_alert/42", .empty⟩⟩ ∧
      strContains "❌ Error: not found" "not found") ∧
    (close_alert "42" (.httpError 404) =
        .ok ⟨"❌ API Error: HTTP 404 - Alert may not exist",
          some ⟨.put, "/api/close_alert/42", .empty⟩⟩ ∧
      strContains "❌ API Error: HTTP 404 - Alert may not exist" "404") := by
  have h := C4_status_field_inspection "L" "CRITICAL" "M" "S" "" "T" "42" "1,2" 42 [1, 2]
    (by decide) (by decide) (by decide) (by decide) (by decide) (by decide) (by decide)
    (by decide) (by decide) (by decide)
  obtain ⟨-, -, -, -, -, -, -, -, -, -, -, -, -, -, -, -, -, -, -, -, -, h22, h23, h24⟩ := h
  exact ⟨h22, h23, h24⟩

/-- C5: `create` accepts a severity only if it is a case-sensitive exact
member of {"CRITICAL", "MAJOR", "WARNING"}; any other non-blank severity
(the other required fields being non-blank) yields a failure string whose
message lists the lowercase names "critical, major, warning", with no
network call; in particular "urgent" and lowercase "critical" are
rejected. -/
theorem C5_severity_member_or_rejected
    (location severity message source timestamp now : String) (o : BackendOutcome)
    (hl : pyStrip location ≠ "") (hm : pyStrip message ≠ "")
    (hsrc : pyStrip source ≠ "") :
    (validate_severity severity = true ↔ severity ∈ ["CRITICAL", "MAJOR", "WARNING"]) ∧
    (pyStrip severity ≠ "" → severity ∉ ["CRITICAL", "MAJOR", "WARNING"] →
      create_alert location severity message source timestamp now o =
        .ok ⟨"❌ Error: Invalid severity. Must be one of: critical, major, warning", none⟩ ∧
      strContains "❌ Error: Invalid severity. Must be one of: critical, major, warning"
        "critical, major, warning") ∧
    create_alert "Location" "urgent" "Msg" "Src" "" now o =
      .ok ⟨"❌ Error: Invalid severity. Must be one of: critical, major, warning", none⟩ ∧
    create_alert "Location" "critical" "Msg" "Src" "" now o =
      .ok ⟨"❌ Error: Invalid severity. Must be one of: critical, major, warning", none⟩ := by
  refine ⟨by simp [validate_severity], ?_, rfl, rfl⟩
  intro hsev hmem
  have hv : validate_severity severity = false := by simp [validate_severity, hmem]
  exact ⟨by simp [create_alert, hl, hsev, hm, hsrc, hv],
    ⟨"❌ Error: Invalid severity. Must be one of: ", "", by decide⟩⟩

/-- Witness for C5: hypotheses discharged at severity "urgent". -/
theorem C5_severity_member_or_rejected_witness :
    (validate_severity "urgent" = true ↔ "urgent" ∈ ["CRITICAL", "MAJOR", "WARNING"]) ∧
    (create_alert "L" "urgent" "M" "S" "" "T" (.body none none) =
        .ok ⟨"❌ Error: Invalid severity. Must be one of: critical, major, warning", none⟩ ∧
      strContains "❌ Error: Invalid severity. Must be one of: critical, major, warning"
        "critical, major, warning") := by
  have h := C5_severity_member_or_rejected "L" "urgent" "M" "S" "" "T" (.body none none)
    (by decide) (by decide) (by decide)
  exact ⟨h.1, h.2.1 (by decide) (by decide)⟩

/-- C6 (amended): when the timestamp argument is blank, the generated
wall-clock ISO-8601 UTC timestamp (`now`, the value of
`format_timestamp()`) is used in the outbound request body and echoed in
the success string; when a non-blank timestamp is supplied, its
whitespace-stripped value is used instead. -/
theorem C6_timestamp_defaulting
    (location severity message source timestamp now : String) (m : Option String)
    (o : BackendOutcome)
    (hl : pyStrip location ≠ "") (hsev : pyStrip severity ≠ "")
    (hm : pyStrip message ≠ "") (hsrc : pyStrip source ≠ "")
    (hv : validate_severity severity = true) :
    (pyStrip timestamp = "" →
      (∃ out, create_alert location severity message source timestamp now o =
        .ok ⟨out, some ⟨.post, "/api/create_alert/",
          .createBody (pyStrip location) (pyStrip severity) (pyStrip message)
            (pyStrip source) now⟩⟩) ∧
      create_alert location severity message source timestamp now
          (.body (some "success") m) =
        .ok ⟨createSuccessString location severity message source now,
          some ⟨.post, "/api/create_alert/",
            .createBody (pyStrip location) (pyStrip severity) (pyStrip message)
              (pyStrip source) now⟩⟩ ∧
      strContains (createSuccessString location severity message source now) now) ∧
    (pyStrip timestamp ≠ "" →
      ∃ out, create_alert location severity message source timestamp now o =
        .ok ⟨out, some ⟨.post, "/api/create_alert/",
          .createBody (pyStrip location) (pyStrip severity) (pyStrip message)
            (pyStrip source) (pyStrip timestamp)⟩⟩) := by
  constructor
  · intro hts
    refine ⟨?_, ?_, ?_⟩
    · obtain ⟨out, heq⟩ :=
        create_alert_request location severity message source timestamp now o
          hl hsev hm hsrc hv
      rw [if_pos hts] at heq
      exact ⟨out, heq⟩
    · have h := create_alert_success location severity message source timestamp now m
        hl hsev hm hsrc hv
      simp only [hts, if_pos] at h
      exact h
    · unfold createSuccessString
      exact strContains_right _ _
  · intro hts
    obtain ⟨out, heq⟩ :=
      create_alert_request location severity message source timestamp now o
        hl hsev hm hsrc hv
    rw [if_neg hts] at heq
    exact ⟨out, heq⟩

/-- Witness for C6: both timestamp cases at concrete inputs. -/
theorem C6_timestamp_defaulting_witness :
    (∃ out, create_alert "L" "CRITICAL" "M" "S" " " "2024-01-01T00:00:00+00:00"
        (.body (some "success") none) =
      .ok ⟨out, some ⟨.post, "/api/create_alert/",
        .createBody "L" "CRITICAL" "M" "S" "2024-01-01T00:00:00+00:00"⟩⟩) ∧
    (∃ out, create_alert "L" "CRITICAL" "M" "S" "2030-06-01T12:00:00+00:00" "NOW"
        (.body (some "success") none) =
      .ok ⟨out, some ⟨.post, "/api/create_alert/",
        .createBody "L" "CRITICAL" "M" "S" "2030-06-01T12:00:00+00:00"⟩⟩) := by
  have h1 := (C6_timestamp_defaulting "L" "CRITICAL" "M" "S" " "
    "2024-01-01T00:00:00+00:00" none (.body (some "success") none)
    (by decide) (by decide) (by decide) (by decide) (by decide)).1 (by decide)
  have h2 := (C6_timestamp_defaulting "L" "CRITICAL" "M" "S" "2030-06-01T12:00:00+00:00"
    "NOW" none (.body (some "success") none)
    (by decide) (by decide) (by decide) (by decide) (by decide)).2 (by decide)
  exact ⟨h1.1, h2⟩

/-- Counterexample to C6 as stated: a non-blank supplied timestamp with
surrounding whitespace is not used verbatim — the request body carries the
stripped value, which differs from the supplied argument. -/
theorem C6_counterexample :
    create_alert "L" "CRITICAL" "M" "S" " 2024-01-01T00:00:00+00:00 " "NOW"
        (.body (some "success") none) =
      .ok ⟨createSuccessString "L" "CRITICAL" "M" "S" "2024-01-01T00:00:00+00:00",
        some ⟨.post, "/api/create_alert/",
          .createBody "L" "CRITICAL" "M" "S" "2024-01-01T00:00:00+00:00"⟩⟩ ∧
    "2024-01-01T00:00:00+00:00" ≠ " 2024-01-01T00:00:00+00:00 " :=
  ⟨rfl, by decide⟩

/-- C7 (amended): the identifiers of an accepted bulk set are integers
with no sign restriction — tokens parsing to zero or negative integers
are accepted and forwarded to the backend exactly like positive ones. -/
theorem C7_ids_any_integer (s : String) (o : BackendOutcome) (ids : List Int)
    (hs : pyStrip s ≠ "") (hp : parse_id_list s = some ids) (hne : ids ≠ []) :
    (∃ out, acknowledge_alerts_bulk s o =
      .ok ⟨out, some ⟨.put, "/api/acknowledge_alerts_bulk/", .idsBody ids⟩⟩) ∧
    (∃ out, close_alerts_bulk s o =
      .ok ⟨out, some ⟨.put, "/api/close_alerts_bulk/", .idsBody ids⟩⟩) ∧
    acknowledge_alerts_bulk "0,-5" (.body (some "success") none) =
      .ok ⟨"✅ 2 alerts acknowledged successfully: [0, -5]",
        some ⟨.put, "/api/acknowledge_alerts_bulk/", .idsBody [0, -5]⟩⟩ :=
  ⟨acknowledge_alerts_bulk_request s o ids hs hp hne,
   close_alerts_bulk_request s o ids hs hp hne, rfl⟩

/-- Witness for C7 (amended): a set containing non-positive identifiers
passes validation and is forwarded. -/
theorem C7_ids_any_integer_witness :
    (∃ out, acknowledge_alerts_bulk "0,-5" (.body (some "success") none) =
      .ok ⟨out, some ⟨.put, "/api/acknowledge_alerts_bulk/", .idsBody [0, -5]⟩⟩) ∧
    (∃ out, close_alerts_bulk "0,-5" (.body (some "success") none) =
      .ok ⟨out, some ⟨.put, "/api/close_alerts_bulk/", .idsBody [0, -5]⟩⟩) := by
  have h := C7_ids_any_integer "0,-5" (.body (some "success") none) [0, -5]
    (by decide) (by decide) (by decide)
  exact ⟨h.1, h.2.1⟩

/-- Counterexample to C7 as stated: the inputs "0" and "-5" contain
non-positive integer tokens, yet each is forwarded to the backend in a
bulk request. -/
theorem C7_counterexample :
    acknowledge_alerts_bulk "0" (.body (some "success") none) =
      .ok ⟨"✅ 1 alerts acknowledged successfully: [0]",
        some ⟨.put, "/api/acknowledge_alerts_bulk/", .idsBody [0]⟩⟩ ∧
    close_alerts_bulk "-5" (.body (some "success") none) =
      .ok ⟨"✅ 1 alerts closed successfully: [-5]",
        some ⟨.put, "/api/close_alerts_bulk/", .idsBody [-5]⟩⟩ ∧
    ¬(0 : Int) > 0 ∧ ¬(-5 : Int) > 0 :=
  ⟨rfl, rfl, by decide, by decide⟩

/-- C8 (amended): the parsed identifiers are kept as a list in input
order; duplicates are forwarded with multiplicity in the bulk request
body, and the count reported in the success string is the length of that
list, duplicates included. -/
theorem C8_ids_kept_as_list (s : String) (m : Option String) (ids : List Int)
    (hs : pyStrip s ≠ "") (hp : parse_id_list s = some ids) (hne : ids ≠ []) :
    acknowledge_alerts_bulk s (.body (some "success") m) =
      .ok ⟨"✅ " ++ toString ids.length ++ " alerts acknowledged successfully: " ++
          toString ids,
        some ⟨.put, "/api/acknowledge_alerts_bulk/", .idsBody ids⟩⟩ ∧
    close_alerts_bulk s (.body (some "success") m) =
      .ok ⟨"✅ " ++ toString ids.length ++ " alerts closed successfully: " ++
          toString ids,
        some ⟨.put, "/api/close_alerts_bulk/", .idsBody ids⟩⟩ :=
  ⟨acknowledge_alerts_bulk_success s ids m hs hp hne,
   close_alerts_bulk_success s ids m hs hp hne⟩

/-- Witness for C8 (amended): the duplicated input "2,1,2" forwards
[2, 1, 2] with multiplicity and reports 3. -/
theorem C8_ids_kept_as_list_witness :
    acknowledge_alerts_bulk "2,1,2" (.body (some "success") none) =
      .ok ⟨"✅ 3 alerts acknowledged successfully: [2, 1, 2]",
        some ⟨.put, "/api/acknowledge_alerts_bulk/", .idsBody [2, 1, 2]⟩⟩ :=
  (C8_ids_kept_as_list "2,1,2" none [2, 1, 2] (by decide) (by decide) (by decide)).1

/-- Counterexample to C8 as stated: for the input "2,1,2" the identifier
2 is forwarded twice in the request body, and the reported count is 3,
not the number of distinct identifiers (2). -/
theorem C8_counterexample :
    acknowledge_alerts_bulk "2,1,2" (.body (some "success") none) =
      .ok ⟨"✅ 3 alerts acknowledged successfully: [2, 1, 2]",
        some ⟨.put, "/api/acknowledge_alerts_bulk/", .idsBody [2, 1, 2]⟩⟩ ∧
    ([2, 1, 2] : List Int).count 2 = 2 ∧
    ([2, 1, 2] : List Int).dedup.length = 2 ∧
    (3 : Nat) ≠ 2 :=
  ⟨rfl, by decide, by decide, by decide⟩

/-- C9: for every successful create call, the request body carries the
whitespace-stripped location, severity, message and source, while the
success string is built from (and contains verbatim) the original
unstripped arguments; with whitespace-padded arguments the echoed values
differ from the values sent, as the concrete instance shows. -/
theorem C9_request_stripped_echo_original
    (location severity message source timestamp now : String) (m : Option String)
    (hl : pyStrip location ≠ "") (hsev : pyStrip severity ≠ "")
    (hm : pyStrip message ≠ "") (hsrc : pyStrip source ≠ "")
    (hv : validate_severity severity = true) :
    (create_alert location severity message source timestamp now
        (.body (some "success") m) =
      .ok ⟨createSuccessString location severity message source
            (if pyStrip timestamp = "" then now else pyStrip timestamp),
        some ⟨.post, "/api/create_alert/",
          .createBody (pyStrip location) (pyStrip severity) (pyStrip message)
            (pyStrip source)
            (if pyStrip timestamp = "" then now else pyStrip timestamp)⟩⟩) ∧
    strContains (createSuccessString location severity message source
      (if pyStrip timestamp = "" then now else pyStrip timestamp)) location ∧
    strContains (createSuccessString location severity message source
      (if pyStrip timestamp = "" then now else pyStrip timestamp)) message ∧
    strContains (createSuccessString location severity message source
      (if pyStrip timestamp = "" then now else pyStrip timestamp)) source ∧
    (create_alert " A " "CRITICAL" " M " " S " "ts" "T" (.body (some "success") none) =
      .ok ⟨createSuccessString " A " "CRITICAL" " M " " S " "ts",
        some ⟨.post, "/api/create_alert/", .createBody "A" "CRITICAL" "M" "S" "ts"⟩⟩) ∧
    ("A" : String) ≠ " A " ∧ ("M" : String) ≠ " M " ∧ ("S" : String) ≠ " S " := by
  obtain ⟨cl, -, cm, cs⟩ := strContains_createSuccessString location severity message source
    (if pyStrip timestamp = "" then now else pyStrip timestamp)
  exact ⟨create_alert_success location severity message source timestamp now m
      hl hsev hm hsrc hv, cl, cm, cs, rfl, by decide, by decide, by decide⟩

/-- Witness for C9: hypotheses discharged at whitespace-padded arguments. -/
theorem C9_request_stripped_echo_original_witness :
    create_alert " A " "CRITICAL" " M " " S " "ts" "T" (.body (some "success") none) =
      .ok ⟨createSuccessString " A " "CRITICAL" " M " " S " "ts",
        some ⟨.post, "/api/create_alert/", .createBody "A" "CRITICAL" "M" "S" "ts"⟩⟩ ∧
    strContains (createSuccessString " A " "CRITICAL" " M " " S " "ts") " A " := by
  have h := C9_request_stripped_echo_original " A " "CRITICAL" " M " " S " "ts" "T" none
    (by decide) (by decide) (by decide) (by decide) (by decide)
  exact ⟨h.2.2.2.2.1, h.2.1⟩

/-- C10: a severity that is a valid token surrounded by whitespace (such
as " CRITICAL ") passes the non-empty check but fails the membership
check, which is applied to the unstripped string; a network call is
issued only when the severity argument is exactly "CRITICAL", "MAJOR" or
"WARNING" with no surrounding whitespace. -/
theorem C10_severity_checked_unstripped
    (location severity message source timestamp now : String) (o : BackendOutcome) :
    (∀ out req,
      create_alert location severity message source timestamp now o = .ok ⟨out, some req⟩ →
      validate_severity severity = true ∧ severity ∈ ["CRITICAL", "MAJOR", "WARNING"]) ∧
    (pyStrip location ≠ "" → pyStrip severity ≠ "" → validate_severity severity = false →
      pyStrip message ≠ "" → pyStrip source ≠ "" →
      create_alert location severity message source timestamp now o =
        .ok ⟨"❌ Error: Invalid severity. Must be one of: critical, major, warning", none⟩) ∧
    pyStrip " CRITICAL " ≠ "" ∧
    validate_severity " CRITICAL " = false ∧
    create_alert "L" " CRITICAL " "M" "S" "" now o =
      .ok ⟨"❌ Error: Invalid severity. Must be one of: critical, major, warning", none⟩ := by
  refine ⟨?_, ?_, by decide, by decide, rfl⟩
  · intro out req h
    unfold create_alert at h
    repeat' split at h
    all_goals simp_all [validate_severity]
    all_goals tauto
  · intro hl hsev hvf hm hsrc
    simp [create_alert, hl, hsev, hvf, hm, hsrc]

/-- Witness for C10: a valid padded severity is rejected while the exact
token is accepted and reaches the network. -/
theorem C10_severity_checked_unstripped_witness :
    (validate_severity "CRITICAL" = true ∧
      "CRITICAL" ∈ ["CRITICAL", "MAJOR", "WARNING"]) ∧
    create_alert "L" " CRITICAL " "M" "S" "" "T" (.body none none) =
      .ok ⟨"❌ Error: Invalid severity. Must be one of: critical, major, warning", none⟩ := by
  have h1 := (C10_severity_checked_unstripped "L" "CRITICAL" "M" "S" "" "T"
    (.body (some "success") none)).1
    (createSuccessString "L" "CRITICAL" "M" "S" "T")
    ⟨.post, "/api/create_alert/", .createBody "L" "CRITICAL" "M" "S" "T"⟩ rfl
  have h2 := (C10_severity_checked_unstripped "L" " CRITICAL " "M" "S" "" "T"
    (.body none none)).2.1 (by decide) (by decide) (by decide) (by decide) (by decide)
  exact ⟨h1, h2⟩
